import Mathlib

/-!
Verification of the OPAQUE session-orchestration backend (family-medical-app,
src/backend-rust). The flow controllers in routes.rs, the router dispatch in
lib.rs and the sliding-window rate limiter in rate_limit.rs are embedded as
executable Lean functions over explicit store states. The PAKE cryptographic
primitive (the opaque_ke library wrapped by opaque.rs) is an external
collaborator per the specification and is represented by an abstract oracle
record. Base64 transport encoding (the base64 crate's STANDARD engine) is
embedded concretely since input-validation behaviour depends on it.
-/

set_option autoImplicit false

namespace FamilyMedical

/-! ## Base64 (STANDARD engine: canonical padding, strict trailing bits) -/

/-- Index of a character in the standard base64 alphabet, none if invalid. -/
def b64Index (c : Char) : Option Nat :=
  if 'A' ≤ c ∧ c ≤ 'Z' then some (c.toNat - 65)
  else if 'a' ≤ c ∧ c ≤ 'z' then some (c.toNat - 71)
  else if '0' ≤ c ∧ c ≤ '9' then some (c.toNat + 4)
  else if c = '+' then some 62
  else if c = '/' then some 63
  else none

/-- Decode a list of base64 characters, four at a time. Rejects non-alphabet
characters, lengths not a multiple of four, padding anywhere but the final
block, and non-canonical (nonzero) trailing bits, matching the strict
STANDARD engine used by the backend. -/
def b64DecodeChunks : List Char → Option (List Nat)
  | [] => some []
  | c1 :: c2 :: c3 :: c4 :: rest =>
    match b64Index c1, b64Index c2 with
    | some i1, some i2 =>
      if c3 = '=' then
        if c4 = '=' ∧ rest = [] ∧ i2 % 16 = 0 then
          some [i1 * 4 + i2 / 16]
        else none
      else
        match b64Index c3 with
        | some i3 =>
          if c4 = '=' then
            if rest = [] ∧ i3 % 4 = 0 then
              some [i1 * 4 + i2 / 16, (i2 % 16) * 16 + i3 / 4]
            else none
          else
            match b64Index c4 with
            | some i4 =>
              match b64DecodeChunks rest with
              | some tail =>
                some ((i1 * 4 + i2 / 16) :: ((i2 % 16) * 16 + i3 / 4) ::
                      ((i3 % 4) * 64 + i4) :: tail)
              | none => none
            | none => none
        | none => none
    | _, _ => none
  | _ => none

/-- Decode of a base64 string to bytes; none on any malformation. -/
def b64Decode (s : String) : Option (List Nat) :=
  b64DecodeChunks s.toList

/-- Character for a 6-bit group. -/
def b64Chr (n : Nat) : Char :=
  ("ABCDEFGHIJKLMNOPQRSTUVWXYZabcdefghijklmnopqrstuvwxyz0123456789+/".toList).getD n 'A'

/-- Encode bytes as base64 characters with canonical padding. -/
def b64EncodeChunks : List Nat → List Char
  | [] => []
  | [x] => [b64Chr (x / 4), b64Chr ((x % 4) * 16), '=', '=']
  | [x, y] => [b64Chr (x / 4), b64Chr ((x % 4) * 16 + y / 16), b64Chr ((y % 16) * 4), '=']
  | x :: y :: z :: rest =>
    b64Chr (x / 4) :: b64Chr ((x % 4) * 16 + y / 16) ::
    b64Chr ((y % 16) * 4 + z / 64) :: b64Chr (z % 64) :: b64EncodeChunks rest

/-- Encode bytes as a base64 string. -/
def b64Encode (l : List Nat) : String :=
  String.mk (b64EncodeChunks l)

/-! ## Key-value store model (Cloudflare KV boundary) -/

/-- A KV namespace: an association list from key to stored text value. -/
abbrev KvStore := List (String × String)

/-- Read a key (kv.get(key).text()). -/
def kvGet : KvStore → String → Option String
  | [], _ => none
  | (k, v) :: rest, key => if k = key then some v else kvGet rest key

/-- Remove a key (kv.delete(key)). -/
def kvDelete : KvStore → String → KvStore
  | [], _ => []
  | (k, v) :: rest, key =>
    if k = key then kvDelete rest key else (k, v) :: kvDelete rest key

/-- Write a key (kv.put(key, value).execute()); overwrites any prior value. -/
def kvPut (s : KvStore) (key value : String) : KvStore :=
  (key, value) :: kvDelete s key

/-- Bytes of a Rust string (client_identifier.as_bytes()). -/
def strBytes (s : String) : List Nat :=
  s.toList.map Char.toNat

/-! ## PAKE primitive boundary -/

/-- The PAKE primitive boundary as the flow controllers in routes.rs
consume it. The cryptographic implementations are external library code
(opaque_ke wrapped by opaque.rs), so the boundary is an abstract oracle
and message payloads are opaque byte blobs; each call returns a Rust
Result, modelled as Except String. The record argument of startLogin is
Option-typed because that is what the call site in handle_login_start
supplies (password_file.as_deref(), none when no credential is stored);
the repository's own wrapper start_login in opaque.rs takes a mandatory
record and provides no none behaviour, a gap recorded by the fake-record
theorem below. startRegistration and finishLogin follow opaque.rs
start_registration and finish_login. -/
structure PakeOracle where
  startRegistration : List Nat → List Nat → Except String (List Nat)
  startLogin : List Nat → Option (List Nat) → List Nat → Except String (List Nat × List Nat)
  finishLogin : List Nat → List Nat → Except String (List Nat)

/-! ## Request and response types (routes.rs) -/

/-- Body of POST /auth/opaque/register/start. -/
structure RegisterStartRequest where
  clientIdentifier : String
  registrationRequest : String
deriving DecidableEq

/-- Body of POST /auth/opaque/register/finish. -/
structure RegisterFinishRequest where
  clientIdentifier : String
  registrationRecord : String
  encryptedBundle : Option String
deriving DecidableEq

/-- Body of POST /auth/opaque/login/start. -/
structure LoginStartRequest where
  clientIdentifier : String
  startLoginRequest : String
deriving DecidableEq

/-- Body of POST /auth/opaque/login/finish. -/
structure LoginFinishRequest where
  clientIdentifier : String
  stateKey : String
  finishLoginRequest : String
deriving DecidableEq

/-- Serialized body of a JSON response, by shape. -/
inductive ApiBody where
  | registerStartOk (registrationResponse : String)
  | successResp (success : Bool)
  | loginStartOk (loginResponse : String) (stateKey : String)
  | loginFinishOk (success : Bool) (sessionKey : String) (encryptedBundle : Option String)
  | errorResp (error : String)
deriving DecidableEq

/-- Outcome of a handler: a JSON response with an HTTP status, or a worker
error propagated by the ? operator (surfaced by the runtime as a 500). -/
inductive HandlerResult where
  | response (body : ApiBody) (status : Nat)
  | thrown (msg : String)
deriving DecidableEq

/-- Rate limit entry stored in KV (rate_limit.rs RateLimitEntry). -/
structure RateLimitEntry where
  count : Nat
  windowStart : Nat
deriving DecidableEq

/-- The worker environment: the four KV namespaces bound in wrangler
(CREDENTIALS, BUNDLES, LOGIN_STATES, RATE_LIMITS). -/
structure Env where
  credentials : KvStore
  bundles : KvStore
  loginStates : KvStore
  rateLimits : List (String × RateLimitEntry)
deriving DecidableEq

/-- Store and primitive operations performed by a handler, in order. -/
inductive StoreEvent where
  | getState (key : String)
  | deleteState (key : String)
  | putState (key : String)
  | getBundle (key : String)
  | pakeVerify
deriving DecidableEq

/-- Suffix test on strings (Rust str::ends_with). -/
def strEndsWith (s suffix : String) : Bool :=
  suffix.data.isSuffixOf s.data

/-! ## Handlers (routes.rs) -/

/-- Handler for POST /auth/opaque/register/start (routes.rs
handle_register_start). Validates identifier length, base64-decodes the
registration request (decode failure propagates as a worker error), drives
the primitive's registration start (the oracle captures the server setup),
and returns the base64 response. No store access. -/
def handle_register_start (oracle : PakeOracle) (body : RegisterStartRequest) : HandlerResult :=
  if body.clientIdentifier.length ≠ 64 then
    .response (.errorResp "Invalid clientIdentifier") 400
  else
    match b64Decode body.registrationRequest with
    | none => .thrown "Invalid base64 in registrationRequest"
    | some requestBytes =>
      match oracle.startRegistration (strBytes body.clientIdentifier) requestBytes with
      | .error e => .thrown e
      | .ok resp => .response (.registerStartOk (b64Encode resp)) 200

/-- Handler for POST /auth/opaque/register/finish (routes.rs
handle_register_finish). Validates identifier length, rejects when a
credential already exists under cred:{id}, validates the record is base64,
then stores the record and, when supplied, the encrypted bundle. -/
def handle_register_finish (env : Env) (body : RegisterFinishRequest) : HandlerResult × Env :=
  if body.clientIdentifier.length ≠ 64 then
    (.response (.errorResp "Invalid clientIdentifier") 400, env)
  else
    let key := "cred:" ++ body.clientIdentifier
    if (kvGet env.credentials key).isSome then
      (.response (.errorResp "Registration failed") 400, env)
    else if (b64Decode body.registrationRecord).isNone then
      (.response (.errorResp "Invalid registration record format") 400, env)
    else
      let env1 := { env with credentials := kvPut env.credentials key body.registrationRecord }
      let env2 :=
        match body.encryptedBundle with
        | some bundle =>
          { env1 with bundles := kvPut env1.bundles ("bundle:" ++ body.clientIdentifier) bundle }
        | none => env1
      (.response (.successResp true) 200, env2)

/-- Handler for POST /auth/opaque/login/start (routes.rs handle_login_start).
Validates identifier length, reads the credential (its absence marks the
fake-record branch and passes none to the primitive instead of failing),
drives the primitive's login start, stores the serialized server state under
state:{id}:{nowMillis}:{f or r} with a 60 second TTL, and returns the
response together with that state key. -/
def handle_login_start (oracle : PakeOracle) (nowMillis : Nat) (env : Env)
    (body : LoginStartRequest) : HandlerResult × Env :=
  if body.clientIdentifier.length ≠ 64 then
    (.response (.errorResp "Invalid clientIdentifier") 400, env)
  else
    let key := "cred:" ++ body.clientIdentifier
    let passwordFileB64 := kvGet env.credentials key
    let isFakeRecord := passwordFileB64.isNone
    let passwordFile : Except String (Option (List Nat)) :=
      match passwordFileB64 with
      | some pfB64 =>
        match b64Decode pfB64 with
        | some pf => .ok (some pf)
        | none => .error "Corrupted password file"
      | none => .ok none
    match passwordFile with
    | .error e => (.thrown e, env)
    | .ok pf =>
      match b64Decode body.startLoginRequest with
      | none => (.thrown "Invalid base64 in startLoginRequest", env)
      | some requestBytes =>
        match oracle.startLogin (strBytes body.clientIdentifier) pf requestBytes with
        | .error e => (.thrown e, env)
        | .ok (resp, st) =>
          let stateKey := "state:" ++ body.clientIdentifier ++ ":" ++ toString nowMillis
            ++ ":" ++ (if isFakeRecord then "f" else "r")
          ( .response (.loginStartOk (b64Encode resp) stateKey) 200,
            { env with loginStates := kvPut env.loginStates stateKey (b64Encode st) } )

/-- Result of the login-finish handler: the outcome, the updated
environment, and the ordered trace of store and primitive operations. -/
structure FinishOut where
  result : HandlerResult
  env : Env
  trace : List StoreEvent
deriving DecidableEq

/-- Handler for POST /auth/opaque/login/finish (routes.rs
handle_login_finish). Validates identifier length, reads the token's stored
state (absence yields the Session expired 401), deletes the entry
immediately after the read and before any further processing, decodes state
and finalization, drives the primitive's finish (failure yields the generic
Authentication failed 401), rejects fake-tagged sessions even on primitive
success, and otherwise returns the session key and the bundle stored under
bundle:{clientIdentifier of the request body}. -/
def handle_login_finish (oracle : PakeOracle) (env : Env)
    (body : LoginFinishRequest) : FinishOut :=
  if body.clientIdentifier.length ≠ 64 then
    ⟨.response (.errorResp "Invalid clientIdentifier") 400, env, []⟩
  else
    let isFakeRecord := strEndsWith body.stateKey ":f"
    match kvGet env.loginStates body.stateKey with
    | none =>
      ⟨.response (.errorResp "Session expired") 401, env, [.getState body.stateKey]⟩
    | some serverStateB64 =>
      let env1 := { env with loginStates := kvDelete env.loginStates body.stateKey }
      let tr := [StoreEvent.getState body.stateKey, StoreEvent.deleteState body.stateKey]
      match b64Decode serverStateB64 with
      | none => ⟨.thrown "Corrupted server state", env1, tr⟩
      | some serverState =>
        match b64Decode body.finishLoginRequest with
        | none => ⟨.thrown "Invalid base64 in finishLoginRequest", env1, tr⟩
        | some finalizationBytes =>
          match oracle.finishLogin serverState finalizationBytes with
          | .error _ =>
            ⟨.response (.errorResp "Authentication failed") 401, env1, tr ++ [.pakeVerify]⟩
          | .ok sessionKey =>
            if isFakeRecord then
              ⟨.response (.errorResp "Authentication failed") 401, env1, tr ++ [.pakeVerify]⟩
            else
              let bundleKey := "bundle:" ++ body.clientIdentifier
              ⟨ .response (.loginFinishOk true (b64Encode sessionKey)
                  (kvGet env1.bundles bundleKey)) 200,
                env1, tr ++ [.pakeVerify, .getBundle bundleKey] ⟩

/-! ## Rate limiter (rate_limit.rs) -/

/-- Rate limit configuration (rate_limit.rs RateLimitConfig). -/
structure RateLimitConfig where
  maxRequests : Nat
  windowSeconds : Nat
deriving DecidableEq

/-- Default configuration: 5 requests per 60 second window. -/
def RateLimitConfig.default : RateLimitConfig := ⟨5, 60⟩

/-- The RATE_LIMITS namespace viewed at entry granularity. -/
abbrev RateStore := List (String × RateLimitEntry)

/-- Read a rate entry. -/
def rlGet : RateStore → String → Option RateLimitEntry
  | [], _ => none
  | (k, v) :: rest, key => if k = key then some v else rlGet rest key

/-- Write a rate entry, shadowing any prior one. -/
def rlPut (s : RateStore) (key : String) (e : RateLimitEntry) : RateStore :=
  (key, e) :: s

/-- Sliding-window check (rate_limit.rs check_rate_limit), sequential model
with now in seconds. Within an unexpired window a count at or above the
maximum denies with the seconds remaining; below it the count increments
and the call is allowed; an absent or expired entry starts a fresh window
with count 1 and is allowed (the KV put is fail-open in the source; here
sequential and always applied). -/
def check_rate_limit (rl : RateStore) (clientIdentifier endpoint : String)
    (now : Nat) (config : RateLimitConfig) : Except Nat Unit × RateStore :=
  let key := "rate:" ++ clientIdentifier ++ ":" ++ endpoint
  match rlGet rl key with
  | some e =>
    if now < e.windowStart + config.windowSeconds then
      if e.count ≥ config.maxRequests then
        (.error (e.windowStart + config.windowSeconds - now), rl)
      else
        (.ok (), rlPut rl key ⟨e.count + 1, e.windowStart⟩)
    else
      (.ok (), rlPut rl key ⟨1, now⟩)
  | none => (.ok (), rlPut rl key ⟨1, now⟩)

/-! ## Router dispatch (lib.rs main) -/

/-- A routed POST request to one of the four authentication endpoints. -/
inductive ApiRequest where
  | registerStart (body : RegisterStartRequest)
  | registerFinish (body : RegisterFinishRequest)
  | loginStart (body : LoginStartRequest)
  | loginFinish (body : LoginFinishRequest)
deriving DecidableEq

/-- Router dispatch (lib.rs main, the match on method and path): each
authentication request is handed directly to its handler. No call to
check_rate_limit occurs anywhere in the dispatch or in the handlers. -/
def mainFetch (oracle : PakeOracle) (nowMillis : Nat) (env : Env) :
    ApiRequest → HandlerResult × Env
  | .registerStart body => (handle_register_start oracle body, env)
  | .registerFinish body => handle_register_finish env body
  | .loginStart body => handle_login_start oracle nowMillis env body
  | .loginFinish body =>
    let out := handle_login_finish oracle env body
    (out.result, out.env)

/-- Modelled from the spec: well-formedness of a ClientIdentifier per
section 3, a fixed length of 64 hexadecimal characters. Used only to state
how the spec's validation rule relates to the validation the code performs. -/
def specWellFormedIdentifier (s : String) : Bool :=
  s.length = 64 && s.toList.all
    (fun c => c.isDigit || ('a' ≤ c && c ≤ 'f') || ('A' ≤ c && c ≤ 'F'))

/-! ## Concrete fixtures and store lemmas -/

/-- A deterministic PAKE oracle for concrete executions (the spec's design
notes call for testing the orchestration core with a mock primitive that
returns deterministic byte strings). -/
def okOracle : PakeOracle where
  startRegistration := fun _ _ => .ok [9, 9]
  startLogin := fun _ _ _ => .ok ([7, 7], [8, 8])
  finishLogin := fun _ _ => .ok [5, 5, 5]

/-- The empty worker environment. -/
def emptyEnv : Env := ⟨[], [], [], []⟩

/-- A well-formed identifier: 64 copies of the hex digit a. -/
def idA : String := String.mk (List.replicate 64 'a')

/-- A second well-formed identifier: 64 copies of the hex digit b. -/
def idB : String := String.mk (List.replicate 64 'b')

/-- A 64-character identifier that is not hexadecimal. -/
def idZ : String := String.mk (List.replicate 64 'z')

theorem kvGet_kvDelete_self (s : KvStore) (key : String) :
    kvGet (kvDelete s key) key = none := by
  induction s with
  | nil => rfl
  | cons p rest ih =>
    obtain ⟨k, v⟩ := p
    by_cases hk : k = key
    · simp [kvDelete, hk, ih]
    · simp [kvDelete, kvGet, hk, ih]

theorem rlGet_rlPut_self (s : RateStore) (key : String) (e : RateLimitEntry) :
    rlGet (rlPut s key e) key = some e := by
  simp [rlGet, rlPut]

/-! ## Claims about registration finish (C5, C7, C8) -/

/-- C7: registration-finish for an identifier that already has a stored
RegistrationRecord fails with the generic Registration failed error (HTTP
400) and leaves the environment, in particular the stored record,
unchanged: no overwrite path exists. -/
theorem register_finish_duplicate_rejected (env : Env) (body : RegisterFinishRequest)
    (rec : String)
    (h64 : body.clientIdentifier.length = 64)
    (hdup : kvGet env.credentials ("cred:" ++ body.clientIdentifier) = some rec) :
    handle_register_finish env body =
      (.response (.errorResp "Registration failed") 400, env) := by
  simp [handle_register_finish, h64, hdup]

/-- Witness for C7 at a concrete registered identifier. -/
theorem register_finish_duplicate_rejected_witness :
    handle_register_finish ⟨[("cred:" ++ idA, "AAAA")], [], [], []⟩ ⟨idA, "AAAA", none⟩ =
      (.response (.errorResp "Registration failed") 400,
       ⟨[("cred:" ++ idA, "AAAA")], [], [], []⟩) :=
  register_finish_duplicate_rejected _ _ "AAAA" (by decide) (by decide)

/-- C8 counterexample: the same registration-finish request body (64
hexadecimal a characters, record not valid base64) fails with the message
Invalid registration record format when the identifier is unregistered but
with the message Registration failed when it is registered, so finish
failures are not collapsed to one outward message and the pair reveals
registration status. -/
theorem register_finish_messages_differ :
    (handle_register_finish emptyEnv ⟨idA, "!!!", none⟩).1 =
      .response (.errorResp "Invalid registration record format") 400 ∧
    (handle_register_finish ⟨[("cred:" ++ idA, "AAAA")], [], [], []⟩ ⟨idA, "!!!", none⟩).1 =
      .response (.errorResp "Registration failed") 400 ∧
    ApiBody.errorResp "Invalid registration record format" ≠
      ApiBody.errorResp "Registration failed" := by
  refine ⟨?_, ?_, ?_⟩ <;> decide

/-- C8 amended: a duplicate identifier always fails with the generic
Registration failed message (the duplicate check runs before record
validation, so this holds whatever the record contents), while a malformed
record encoding on an unregistered identifier fails with the distinct
Invalid registration record format message; in both cases nothing is
written. -/
theorem register_finish_failure_messages (env : Env) (body : RegisterFinishRequest)
    (h64 : body.clientIdentifier.length = 64) :
    ((kvGet env.credentials ("cred:" ++ body.clientIdentifier)).isSome = true →
      handle_register_finish env body =
        (.response (.errorResp "Registration failed") 400, env)) ∧
    (kvGet env.credentials ("cred:" ++ body.clientIdentifier) = none →
      b64Decode body.registrationRecord = none →
      handle_register_finish env body =
        (.response (.errorResp "Invalid registration record format") 400, env)) := by
  constructor
  · intro hdup
    simp [handle_register_finish, h64, hdup]
  · intro hnone hbad
    simp [handle_register_finish, h64, hnone, hbad]

/-- Witness for the amended C8 at a concrete duplicate identifier. -/
theorem register_finish_failure_messages_witness :
    handle_register_finish ⟨[("cred:" ++ idA, "AAAA")], [], [], []⟩ ⟨idA, "!!!", none⟩ =
      (.response (.errorResp "Registration failed") 400,
       ⟨[("cred:" ++ idA, "AAAA")], [], [], []⟩) :=
  (register_finish_failure_messages _ _ (by decide)).1 (by decide)

/-- C5: the code accepts the malformed identifier made of 64 z characters
(correct length but not hexadecimal, hence not well-formed per the spec),
proceeds to the credential store and writes the registration record under
it, instead of rejecting the request before any store access with the
generic InvalidInput response: only the length rule is enforced. -/
theorem register_finish_accepts_non_hex_identifier :
    specWellFormedIdentifier idZ = false ∧
    idZ.length = 64 ∧
    (handle_register_finish emptyEnv ⟨idZ, "AAAA", none⟩).1 =
      .response (.successResp true) 200 ∧
    kvGet (handle_register_finish emptyEnv ⟨idZ, "AAAA", none⟩).2.credentials
      ("cred:" ++ idZ) = some "AAAA" := by
  refine ⟨?_, ?_, ?_, ?_⟩ <;> decide

/-! ## Claims about login start (C1) -/

/-- Behaviour of the opaque_ke library calls made by opaque.rs start_login,
abstracted: CredentialRequest::deserialize, RegistrationUpload::deserialize,
ServerRegistration::finish and ServerLogin::start. Parsed protocol values
are opaque and kept as byte blobs. ServerLogin::start's record parameter is
Option-typed in the library (a none record selects its internal
fake-record path). -/
structure OpaqueKe where
  credentialRequestDeserialize : List Nat → Except String (List Nat)
  registrationUploadDeserialize : List Nat → Except String (List Nat)
  serverRegistrationFinish : List Nat → List Nat
  serverLoginStart : Option (List Nat) → List Nat → List Nat → Except String (List Nat × List Nat)

/-- Embedding of the repository's PAKE wrapper start_login (opaque.rs lines
80 to 110): the password file parameter is mandatory; it is always
deserialized as a RegistrationUpload, completed with
ServerRegistration::finish, and passed as a some record to
ServerLogin::start. No branch supplies a none record. -/
def start_login (lib : OpaqueKe)
    (client_identifier password_file credential_request : List Nat) :
    Except String (List Nat × List Nat) :=
  match lib.credentialRequestDeserialize credential_request with
  | .error _ => .error "Failed to deserialize credential request"
  | .ok request =>
    match lib.registrationUploadDeserialize password_file with
    | .error _ => .error "Failed to deserialize password file"
    | .ok password =>
      let server_registration := lib.serverRegistrationFinish password
      match lib.serverLoginStart (some server_registration) request client_identifier with
      | .error _ => .error "Failed to start login"
      | .ok result => .ok result

/-- Replacement of only the none-record behaviour of a ServerLogin::start
implementation, leaving every some-record call unchanged. -/
def overrideNoneBranch
    (f : List Nat → List Nat → Except String (List Nat × List Nat))
    (g : Option (List Nat) → List Nat → List Nat → Except String (List Nat × List Nat)) :
    Option (List Nat) → List Nat → List Nat → Except String (List Nat × List Nat)
  | none, req, id => f req id
  | some r, req, id => g (some r) req id

/-- A primitive oracle that answers the none-record (unknown-user) call
with a deterministic success. -/
def fakeOkOracle : PakeOracle where
  startRegistration := fun _ _ => .ok [9, 9]
  startLogin := fun _ rec _ =>
    match rec with
    | some _ => .ok ([7, 7], [8, 8])
    | none => .ok ([7, 7], [8, 8])
  finishLogin := fun _ _ => .ok [5, 5, 5]

/-- A primitive oracle identical to fakeOkOracle on every some-record call
but failing the none-record call, as a record-requiring primitive must. -/
def fakeErrOracle : PakeOracle where
  startRegistration := fun _ _ => .ok [9, 9]
  startLogin := fun _ rec _ =>
    match rec with
    | some _ => .ok ([7, 7], [8, 8])
    | none => .error "no record"
  finishLogin := fun _ _ => .ok [5, 5, 5]

/-- C1: the announced fake-record path does not exist in the code. First
conjunct: the repository's wrapper start_login (opaque.rs) is invariant
under arbitrary replacement of the library's none-record behaviour — it
always drives ServerLogin::start with a some record, so the primitive the
repository exports has no fake-record branch. Remaining conjuncts: the
flow controller handle_login_start (routes.rs), on a well-formed
unregistered identifier, does depend on a primitive's none-record
behaviour — two oracles that agree on every some-record call but differ
at none yield a 200 fake-tagged response under one and a propagated
failure under the other. The controller thus requires exactly the
none-record capability start_login does not supply (its call site passes
an Option where opaque.rs takes a mandatory record), so the code cannot
deliver the structurally valid unknown-user response the claim asserts. -/
theorem start_login_lacks_fake_record_branch :
    (∀ (lib : OpaqueKe)
        (f : List Nat → List Nat → Except String (List Nat × List Nat))
        (id pf req : List Nat),
      start_login { lib with serverLoginStart := overrideNoneBranch f lib.serverLoginStart }
          id pf req =
        start_login lib id pf req) ∧
    (∀ (i r q : List Nat),
      fakeOkOracle.startLogin i (some r) q = fakeErrOracle.startLogin i (some r) q) ∧
    (handle_login_start fakeOkOracle 0 emptyEnv ⟨idA, "AAAA"⟩).1 =
      .response (.loginStartOk (b64Encode [7, 7])
        ("state:" ++ idA ++ ":" ++ toString 0 ++ ":" ++ "f")) 200 ∧
    (handle_login_start fakeErrOracle 0 emptyEnv ⟨idA, "AAAA"⟩).1 =
      .thrown "no record" := by
  refine ⟨?_, ?_, ?_, ?_⟩
  · intro lib f id pf req
    rcases hc : lib.credentialRequestDeserialize req with e | request
    · simp [start_login, hc]
    · rcases hp : lib.registrationUploadDeserialize pf with e | password
      · simp [start_login, hc, hp]
      · simp [start_login, hc, hp, overrideNoneBranch]
  · intro i r q
    rfl
  · rfl
  · rfl

/-! ## Claims about login finish (C2, C3, C4, C6) -/

theorem login_finish_deletes_found_state (oracle : PakeOracle) (env : Env)
    (body : LoginFinishRequest) (sB64 : String)
    (h64 : body.clientIdentifier.length = 64)
    (hfound : kvGet env.loginStates body.stateKey = some sB64) :
    (handle_login_finish oracle env body).env.loginStates =
      kvDelete env.loginStates body.stateKey := by
  simp only [handle_login_finish, h64, hfound]
  rcases hss : b64Decode sB64 with _ | ss <;>
    simp only [hss] <;> try rfl
  rcases hfb : b64Decode body.finishLoginRequest with _ | fb <;>
    simp only [hfb] <;> try rfl
  rcases hor : oracle.finishLogin ss fb with e | sk <;>
    simp only [hor] <;> try rfl
  by_cases hfake : strEndsWith body.stateKey ":f" = true <;>
    simp [hfake]

/-- C2: after a first login-finish call that found the token's stored state
(whatever that call then returned), the state is deleted, and any second
well-formed call with the same token observes no stored state and fails
with the Session expired error (HTTP 401): a token is consumable at most
once. -/
theorem login_finish_token_single_use (oracle : PakeOracle) (env : Env)
    (body1 body2 : LoginFinishRequest) (sB64 : String)
    (h641 : body1.clientIdentifier.length = 64)
    (hfound : kvGet env.loginStates body1.stateKey = some sB64)
    (h642 : body2.clientIdentifier.length = 64)
    (hsame : body2.stateKey = body1.stateKey) :
    kvGet (handle_login_finish oracle env body1).env.loginStates body1.stateKey = none ∧
    (handle_login_finish oracle (handle_login_finish oracle env body1).env body2).result =
      .response (.errorResp "Session expired") 401 := by
  have hdel := login_finish_deletes_found_state oracle env body1 sB64 h641 hfound
  have hnone :
      kvGet (handle_login_finish oracle env body1).env.loginStates body2.stateKey = none := by
    rw [hsame, hdel]
    exact kvGet_kvDelete_self _ _
  refine ⟨?_, ?_⟩
  · rw [hdel]
    exact kvGet_kvDelete_self _ _
  · generalize hE : (handle_login_finish oracle env body1).env = env1 at hnone
    simp [handle_login_finish, h642, hnone]

/-- Witness for C2: a concrete replayed finish request under the
deterministic oracle. -/
theorem login_finish_token_single_use_witness :
    kvGet (handle_login_finish okOracle
        ⟨[], [], [("state:" ++ idA ++ ":0:r", "AAAA")], []⟩
        ⟨idA, "state:" ++ idA ++ ":0:r", "AAAA"⟩).env.loginStates
      ("state:" ++ idA ++ ":0:r") = none ∧
    (handle_login_finish okOracle
      (handle_login_finish okOracle
        ⟨[], [], [("state:" ++ idA ++ ":0:r", "AAAA")], []⟩
        ⟨idA, "state:" ++ idA ++ ":0:r", "AAAA"⟩).env
      ⟨idA, "state:" ++ idA ++ ":0:r", "AAAA"⟩).result =
      .response (.errorResp "Session expired") 401 :=
  login_finish_token_single_use okOracle
    ⟨[], [], [("state:" ++ idA ++ ":0:r", "AAAA")], []⟩
    ⟨idA, "state:" ++ idA ++ ":0:r", "AAAA"⟩
    ⟨idA, "state:" ++ idA ++ ":0:r", "AAAA"⟩ "AAAA"
    (by decide) (by decide) (by decide) rfl

/-- C3: whenever login-finish reaches the PAKE verification step, the
operation trace begins with the read and then the delete of the token's
stored state, so the delete precedes the verify call, and afterwards the
token's entry is absent from the store whatever verification returned. -/
theorem login_finish_delete_before_verify (oracle : PakeOracle) (env : Env)
    (body : LoginFinishRequest)
    (hverify : StoreEvent.pakeVerify ∈ (handle_login_finish oracle env body).trace) :
    (∃ l, (handle_login_finish oracle env body).trace =
        StoreEvent.getState body.stateKey :: StoreEvent.deleteState body.stateKey :: l ∧
        StoreEvent.pakeVerify ∈ l) ∧
    kvGet (handle_login_finish oracle env body).env.loginStates body.stateKey = none := by
  by_cases h64 : body.clientIdentifier.length = 64
  · rcases hfd : kvGet env.loginStates body.stateKey with _ | s
    · simp [handle_login_finish, h64, hfd] at hverify
    · rcases hss : b64Decode s with _ | ss
      · simp [handle_login_finish, h64, hfd, hss] at hverify
      · rcases hfb : b64Decode body.finishLoginRequest with _ | fb
        · simp [handle_login_finish, h64, hfd, hss, hfb] at hverify
        · rcases hor : oracle.finishLogin ss fb with e | sk
          · refine ⟨⟨[StoreEvent.pakeVerify], ?_, ?_⟩, ?_⟩ <;>
              simp [handle_login_finish, h64, hfd, hss, hfb, hor, kvGet_kvDelete_self]
          · by_cases hfake : strEndsWith body.stateKey ":f" = true
            · refine ⟨⟨[StoreEvent.pakeVerify], ?_, ?_⟩, ?_⟩ <;>
                simp [handle_login_finish, h64, hfd, hss, hfb, hor, hfake,
                  kvGet_kvDelete_self]
            · refine ⟨⟨[StoreEvent.pakeVerify,
                  StoreEvent.getBundle ("bundle:" ++ body.clientIdentifier)], ?_, ?_⟩, ?_⟩ <;>
                simp [handle_login_finish, h64, hfd, hss, hfb, hor, hfake,
                  kvGet_kvDelete_self]
  · simp [handle_login_finish, h64] at hverify

/-- Witness for C3 at a concrete finish request that reaches verification. -/
theorem login_finish_delete_before_verify_witness :
    (∃ l, (handle_login_finish okOracle
        ⟨[], [], [("state:" ++ idA ++ ":0:r", "AAAA")], []⟩
        ⟨idA, "state:" ++ idA ++ ":0:r", "AAAA"⟩).trace =
        StoreEvent.getState ("state:" ++ idA ++ ":0:r") ::
          StoreEvent.deleteState ("state:" ++ idA ++ ":0:r") :: l ∧
        StoreEvent.pakeVerify ∈ l) ∧
    kvGet (handle_login_finish okOracle
        ⟨[], [], [("state:" ++ idA ++ ":0:r", "AAAA")], []⟩
        ⟨idA, "state:" ++ idA ++ ":0:r", "AAAA"⟩).env.loginStates
      ("state:" ++ idA ++ ":0:r") = none :=
  login_finish_delete_before_verify okOracle
    ⟨[], [], [("state:" ++ idA ++ ":0:r", "AAAA")], []⟩
    ⟨idA, "state:" ++ idA ++ ":0:r", "AAAA"⟩ (by decide)

/-- C4 counterexample: a login-finish request whose session token is tagged
fake and whose stored state is present, with a finalization that is not
valid base64, does not produce the Authentication failed response: the
decode failure propagates as a worker error. So the claim as stated, that
every finalization input yields the AuthenticationFailed error, fails at
this concrete input. -/
theorem login_finish_fake_bad_base64_not_auth_failed :
    strEndsWith ("state:" ++ idA ++ ":0:f") ":f" = true ∧
    (kvGet [("state:" ++ idA ++ ":0:f", "AAAA")] ("state:" ++ idA ++ ":0:f")).isSome = true ∧
    (handle_login_finish okOracle
        ⟨[], [], [("state:" ++ idA ++ ":0:f", "AAAA")], []⟩
        ⟨idA, "state:" ++ idA ++ ":0:f", "!!!"⟩).result =
      .thrown "Invalid base64 in finishLoginRequest" ∧
    HandlerResult.thrown "Invalid base64 in finishLoginRequest" ≠
      .response (.errorResp "Authentication failed") 401 := by
  refine ⟨?_, ?_, ?_, ?_⟩ <;> decide

/-- C4 amended: a login-finish request whose session token is tagged fake
never yields the success response, for any oracle, store state and
finalization; and whenever such a request reaches the PAKE finish step
(identifier well-formed, stored state present, both payloads decode), the
response is the generic Authentication failed error (HTTP 401) even when
the primitive reports success. -/
theorem login_finish_fake_never_succeeds (oracle : PakeOracle) (env : Env)
    (body : LoginFinishRequest)
    (hfake : strEndsWith body.stateKey ":f" = true) :
    (∀ sk eb st, (handle_login_finish oracle env body).result ≠
        .response (.loginFinishOk true sk eb) st) ∧
    (∀ sB64 ss fb, body.clientIdentifier.length = 64 →
      kvGet env.loginStates body.stateKey = some sB64 →
      b64Decode sB64 = some ss →
      b64Decode body.finishLoginRequest = some fb →
      (handle_login_finish oracle env body).result =
        .response (.errorResp "Authentication failed") 401) := by
  constructor
  · intro sk eb st
    by_cases h64 : body.clientIdentifier.length = 64
    · rcases hfd : kvGet env.loginStates body.stateKey with _ | s
      · simp [handle_login_finish, h64, hfd]
      · rcases hss : b64Decode s with _ | ss
        · simp [handle_login_finish, h64, hfd, hss]
        · rcases hfb : b64Decode body.finishLoginRequest with _ | fb
          · simp [handle_login_finish, h64, hfd, hss, hfb]
          · rcases hor : oracle.finishLogin ss fb with e | k
            · simp [handle_login_finish, h64, hfd, hss, hfb, hor]
            · simp [handle_login_finish, h64, hfd, hss, hfb, hor, hfake]
    · simp [handle_login_finish, h64]
  · intro sB64 ss fb h64 hfd hss hfb
    rcases hor : oracle.finishLogin ss fb with e | k <;>
      simp [handle_login_finish, h64, hfd, hss, hfb, hor, hfake]

/-- Witness for the amended C4: the deterministic oracle reports success on
the fake-tagged token, yet the response is Authentication failed. -/
theorem login_finish_fake_never_succeeds_witness :
    (handle_login_finish okOracle
        ⟨[], [], [("state:" ++ idA ++ ":0:f", "AAAA")], []⟩
        ⟨idA, "state:" ++ idA ++ ":0:f", "AAAA"⟩).result =
      .response (.errorResp "Authentication failed") 401 :=
  (login_finish_fake_never_succeeds okOracle
      ⟨[], [], [("state:" ++ idA ++ ":0:f", "AAAA")], []⟩
      ⟨idA, "state:" ++ idA ++ ":0:f", "AAAA"⟩ (by decide)).2
    "AAAA" [0, 0, 0] [0, 0, 0] (by decide) (by decide) (by decide) (by decide)

/-- C6: on successful verification with a token not tagged fake, the bundle
returned is the one stored under the clientIdentifier field of the finish
request body. The statement ranges over a token whose embedded identifier
idA0 is unrelated to the body identifier idB0 (no hypothesis connects
them, and none is checked by the code), so a finish request pairing a
valid token for one account with a different clientIdentifier returns the
bundle stored for that different identifier. -/
theorem login_finish_bundle_keyed_by_body_identifier
    (oracle : PakeOracle) (env : Env) (idA0 idB0 ts : String)
    (body : LoginFinishRequest) (sB64 : String) (ss fb sk : List Nat)
    (hbody : body.clientIdentifier = idB0)
    (hlen : idB0.length = 64)
    (hkey : body.stateKey = "state:" ++ idA0 ++ ":" ++ ts ++ ":" ++ "r")
    (hnotFake : strEndsWith body.stateKey ":f" = false)
    (hfound : kvGet env.loginStates body.stateKey = some sB64)
    (hss : b64Decode sB64 = some ss)
    (hfb : b64Decode body.finishLoginRequest = some fb)
    (hok : oracle.finishLogin ss fb = .ok sk) :
    (handle_login_finish oracle env body).result =
      .response (.loginFinishOk true (b64Encode sk)
        (kvGet env.bundles ("bundle:" ++ idB0))) 200 := by
  subst hbody
  simp [handle_login_finish, hlen, hnotFake, hfound, hss, hfb, hok]

/-- Witness for C6: a token embedding identifier idA paired with body
identifier idB returns the bundle stored for idB, not the one for idA. -/
theorem login_finish_bundle_keyed_by_body_identifier_witness :
    (handle_login_finish okOracle
        ⟨[], [("bundle:" ++ idB, "bundleB"), ("bundle:" ++ idA, "bundleA")],
         [("state:" ++ idA ++ ":0:r", "AAAA")], []⟩
        ⟨idB, "state:" ++ idA ++ ":0:r", "AAAA"⟩).result =
      .response (.loginFinishOk true (b64Encode [5, 5, 5]) (some "bundleB")) 200 :=
  (login_finish_bundle_keyed_by_body_identifier okOracle
      ⟨[], [("bundle:" ++ idB, "bundleB"), ("bundle:" ++ idA, "bundleA")],
       [("state:" ++ idA ++ ":0:r", "AAAA")], []⟩
      idA idB "0"
      ⟨idB, "state:" ++ idA ++ ":0:r", "AAAA"⟩ "AAAA" [0, 0, 0] [0, 0, 0] [5, 5, 5]
      rfl (by decide) (by decide) (by decide) (by decide) (by decide) (by decide)
      rfl).trans (by decide)

/-! ## Rate limiter lemmas and claims (C9, C10) -/

/-- Outcomes of running the rate limit check sequentially at the given
times for one (identifier, endpoint) key, threading the store. -/
def rlSteps (clientIdentifier endpoint : String) (config : RateLimitConfig) :
    List Nat → RateStore → List (Except Nat Unit) × RateStore
  | [], rl => ([], rl)
  | t :: ts, rl =>
    let r1 := check_rate_limit rl clientIdentifier endpoint t config
    let rest := rlSteps clientIdentifier endpoint config ts r1.2
    (r1.1 :: rest.1, rest.2)

/-- An allowed outcome of the check. -/
def isAllowed : Except Nat Unit → Bool
  | .ok _ => true
  | .error _ => false

theorem check_rate_limit_fresh (rl : RateStore) (id ep : String) (now : Nat)
    (cfg : RateLimitConfig)
    (h : rlGet rl ("rate:" ++ id ++ ":" ++ ep) = none) :
    check_rate_limit rl id ep now cfg =
      (.ok (), rlPut rl ("rate:" ++ id ++ ":" ++ ep) ⟨1, now⟩) := by
  simp [check_rate_limit, h]

theorem check_rate_limit_expired (rl : RateStore) (id ep : String) (now : Nat)
    (cfg : RateLimitConfig) (e : RateLimitEntry)
    (h : rlGet rl ("rate:" ++ id ++ ":" ++ ep) = some e)
    (hexp : e.windowStart + cfg.windowSeconds ≤ now) :
    check_rate_limit rl id ep now cfg =
      (.ok (), rlPut rl ("rate:" ++ id ++ ":" ++ ep) ⟨1, now⟩) := by
  simp [check_rate_limit, h, Nat.not_lt.mpr hexp]

theorem check_rate_limit_increments (rl : RateStore) (id ep : String) (now : Nat)
    (cfg : RateLimitConfig) (e : RateLimitEntry)
    (h : rlGet rl ("rate:" ++ id ++ ":" ++ ep) = some e)
    (hwin : now < e.windowStart + cfg.windowSeconds)
    (hlt : e.count < cfg.maxRequests) :
    check_rate_limit rl id ep now cfg =
      (.ok (), rlPut rl ("rate:" ++ id ++ ":" ++ ep) ⟨e.count + 1, e.windowStart⟩) := by
  simp [check_rate_limit, h, hwin, Nat.not_le.mpr hlt]

theorem check_rate_limit_denies (rl : RateStore) (id ep : String) (now : Nat)
    (cfg : RateLimitConfig) (e : RateLimitEntry)
    (h : rlGet rl ("rate:" ++ id ++ ":" ++ ep) = some e)
    (hwin : now < e.windowStart + cfg.windowSeconds)
    (hge : cfg.maxRequests ≤ e.count) :
    check_rate_limit rl id ep now cfg =
      (.error (e.windowStart + cfg.windowSeconds - now), rl) := by
  simp [check_rate_limit, h, hwin, hge]

theorem rlSteps_all_allowed (id ep : String) (cfg : RateLimitConfig) (t0 : Nat) :
    ∀ (ts : List Nat) (rl : RateStore) (c : Nat),
      rlGet rl ("rate:" ++ id ++ ":" ++ ep) = some ⟨c, t0⟩ →
      (∀ t ∈ ts, t < t0 + cfg.windowSeconds) →
      c + ts.length ≤ cfg.maxRequests →
      (∀ r ∈ (rlSteps id ep cfg ts rl).1, isAllowed r = true) ∧
      rlGet (rlSteps id ep cfg ts rl).2 ("rate:" ++ id ++ ":" ++ ep) =
        some ⟨c + ts.length, t0⟩ := by
  intro ts
  induction ts with
  | nil =>
    intro rl c hget _ _
    exact ⟨by simp [rlSteps], by simpa [rlSteps] using hget⟩
  | cons t ts ih =>
    intro rl c hget hin hle
    have hwin : t < t0 + cfg.windowSeconds := hin t (by simp)
    have hlt : c < cfg.maxRequests := by
      have := hle
      simp [List.length] at this
      omega
    have hstep := check_rate_limit_increments rl id ep t cfg ⟨c, t0⟩ hget hwin hlt
    have hget' : rlGet (check_rate_limit rl id ep t cfg).2 ("rate:" ++ id ++ ":" ++ ep) =
        some ⟨c + 1, t0⟩ := by
      rw [hstep]
      exact rlGet_rlPut_self _ _ _
    have hle' : c + 1 + ts.length ≤ cfg.maxRequests := by
      simp [List.length] at hle
      omega
    obtain ⟨hall, hfin⟩ := ih (check_rate_limit rl id ep t cfg).2 (c + 1) hget'
      (fun t' ht' => hin t' (by simp [ht'])) hle'
    constructor
    · intro r hr
      simp only [rlSteps, List.mem_cons] at hr
      rcases hr with hr | hr
      · rw [hr, hstep]
        rfl
      · exact hall r hr
    · simpa [rlSteps, Nat.add_assoc, Nat.add_comm 1 ts.length] using hfin

/-- C10: behaviour of the sliding-window check for one key, run
sequentially. Conjuncts: an absent entry starts a window with count 1 and
allows; an expired entry resets to count 1 and allows; an in-window entry
below the maximum increments and allows; an in-window entry at or above
the maximum denies with at most windowSeconds remaining (given the window
started no later than now); the stored count never exceeds the maximum;
and from a fresh key, a call at t0 followed by maxRequests - 1 calls
within the window are all allowed leaving count maxRequests, the next
in-window call is denied with remaining at most windowSeconds, and a call
at or after the window end is allowed with the count reset to 1. -/
theorem rate_limiter_sliding_window (id ep : String) (cfg : RateLimitConfig)
    (hmax : 1 ≤ cfg.maxRequests) :
    (∀ rl now, rlGet rl ("rate:" ++ id ++ ":" ++ ep) = none →
      check_rate_limit rl id ep now cfg =
        (.ok (), rlPut rl ("rate:" ++ id ++ ":" ++ ep) ⟨1, now⟩)) ∧
    (∀ rl now e, rlGet rl ("rate:" ++ id ++ ":" ++ ep) = some e →
      e.windowStart + cfg.windowSeconds ≤ now →
      check_rate_limit rl id ep now cfg =
        (.ok (), rlPut rl ("rate:" ++ id ++ ":" ++ ep) ⟨1, now⟩)) ∧
    (∀ rl now e, rlGet rl ("rate:" ++ id ++ ":" ++ ep) = some e →
      now < e.windowStart + cfg.windowSeconds → e.count < cfg.maxRequests →
      check_rate_limit rl id ep now cfg =
        (.ok (), rlPut rl ("rate:" ++ id ++ ":" ++ ep) ⟨e.count + 1, e.windowStart⟩)) ∧
    (∀ rl now e, rlGet rl ("rate:" ++ id ++ ":" ++ ep) = some e →
      now < e.windowStart + cfg.windowSeconds → cfg.maxRequests ≤ e.count →
      e.windowStart ≤ now →
      check_rate_limit rl id ep now cfg =
        (.error (e.windowStart + cfg.windowSeconds - now), rl) ∧
      e.windowStart + cfg.windowSeconds - now ≤ cfg.windowSeconds) ∧
    (∀ rl now e',
      (∀ e, rlGet rl ("rate:" ++ id ++ ":" ++ ep) = some e → e.count ≤ cfg.maxRequests) →
      rlGet (check_rate_limit rl id ep now cfg).2 ("rate:" ++ id ++ ":" ++ ep) = some e' →
      e'.count ≤ cfg.maxRequests) ∧
    (∀ rl0 t0 ts, rlGet rl0 ("rate:" ++ id ++ ":" ++ ep) = none →
      (∀ t ∈ ts, t < t0 + cfg.windowSeconds) →
      ts.length + 1 = cfg.maxRequests →
      (check_rate_limit rl0 id ep t0 cfg).1 = .ok () ∧
      (∀ r ∈ (rlSteps id ep cfg ts (check_rate_limit rl0 id ep t0 cfg).2).1,
        isAllowed r = true) ∧
      rlGet (rlSteps id ep cfg ts (check_rate_limit rl0 id ep t0 cfg).2).2
          ("rate:" ++ id ++ ":" ++ ep) = some ⟨cfg.maxRequests, t0⟩ ∧
      (∀ t', t0 ≤ t' → t' < t0 + cfg.windowSeconds →
        (check_rate_limit (rlSteps id ep cfg ts (check_rate_limit rl0 id ep t0 cfg).2).2
            id ep t' cfg).1 = .error (t0 + cfg.windowSeconds - t') ∧
        t0 + cfg.windowSeconds - t' ≤ cfg.windowSeconds) ∧
      (∀ t'', t0 + cfg.windowSeconds ≤ t'' →
        check_rate_limit (rlSteps id ep cfg ts (check_rate_limit rl0 id ep t0 cfg).2).2
            id ep t'' cfg =
          (.ok (), rlPut (rlSteps id ep cfg ts (check_rate_limit rl0 id ep t0 cfg).2).2
            ("rate:" ++ id ++ ":" ++ ep) ⟨1, t''⟩))) := by
  refine ⟨?_, ?_, ?_, ?_, ?_, ?_⟩
  · intro rl now h
    exact check_rate_limit_fresh rl id ep now cfg h
  · intro rl now e h hexp
    exact check_rate_limit_expired rl id ep now cfg e h hexp
  · intro rl now e h hwin hlt
    exact check_rate_limit_increments rl id ep now cfg e h hwin hlt
  · intro rl now e h hwin hge hstartle
    exact ⟨check_rate_limit_denies rl id ep now cfg e h hwin hge, by omega⟩
  · intro rl now e' hins hget'
    rcases hsome : rlGet rl ("rate:" ++ id ++ ":" ++ ep) with _ | e
    · rw [check_rate_limit_fresh rl id ep now cfg hsome, rlGet_rlPut_self] at hget'
      injection hget' with h2
      rw [← h2]
      exact hmax
    · by_cases hwin : now < e.windowStart + cfg.windowSeconds
      · by_cases hge : cfg.maxRequests ≤ e.count
        · rw [check_rate_limit_denies rl id ep now cfg e hsome hwin hge] at hget'
          simp only at hget'
          rw [hsome] at hget'
          injection hget' with h2
          rw [← h2]
          exact hins e hsome
        · rw [check_rate_limit_increments rl id ep now cfg e hsome hwin
            (Nat.not_le.mp hge), rlGet_rlPut_self] at hget'
          injection hget' with h2
          rw [← h2]
          simpa using Nat.not_le.mp hge
      · rw [check_rate_limit_expired rl id ep now cfg e hsome (Nat.not_lt.mp hwin),
          rlGet_rlPut_self] at hget'
        injection hget' with h2
        rw [← h2]
        exact hmax
  · intro rl0 t0 ts h0 hin hlen
    have hstep0 := check_rate_limit_fresh rl0 id ep t0 cfg h0
    have hget1 : rlGet (check_rate_limit rl0 id ep t0 cfg).2
        ("rate:" ++ id ++ ":" ++ ep) = some ⟨1, t0⟩ := by
      rw [hstep0]
      exact rlGet_rlPut_self _ _ _
    obtain ⟨hall, hfin⟩ := rlSteps_all_allowed id ep cfg t0 ts
      (check_rate_limit rl0 id ep t0 cfg).2 1 hget1 hin (by omega)
    have hfin' : rlGet (rlSteps id ep cfg ts (check_rate_limit rl0 id ep t0 cfg).2).2
        ("rate:" ++ id ++ ":" ++ ep) = some ⟨cfg.maxRequests, t0⟩ := by
      rw [hfin]
      congr 2
      omega
    refine ⟨by rw [hstep0], hall, hfin', ?_, ?_⟩
    · intro t' hle hlt
      refine ⟨?_, by omega⟩
      rw [check_rate_limit_denies _ id ep t' cfg ⟨cfg.maxRequests, t0⟩ hfin' hlt
        (Nat.le_refl _)]
    · intro t'' hexp
      exact check_rate_limit_expired _ id ep t'' cfg ⟨cfg.maxRequests, t0⟩ hfin' hexp

/-- Witness for C10 at a concrete saturated window: count 5 of maximum 5,
window started at 10, checked at 30, denied with 40 seconds remaining. -/
theorem rate_limiter_sliding_window_witness :
    check_rate_limit [("rate:" ++ idA ++ ":login/start", ⟨5, 10⟩)] idA "login/start" 30
        RateLimitConfig.default =
      (.error 40, [("rate:" ++ idA ++ ":login/start", ⟨5, 10⟩)]) ∧
    (40 : Nat) ≤ 60 :=
  (rate_limiter_sliding_window idA "login/start" RateLimitConfig.default
      (by decide)).2.2.2.1 [("rate:" ++ idA ++ ":login/start", ⟨5, 10⟩)] 30 ⟨5, 10⟩
    (by decide) (by decide) (by decide) (by decide)

theorem register_finish_rate_independent (c b l : KvStore) (r r' : RateStore)
    (body : RegisterFinishRequest) :
    (handle_register_finish ⟨c, b, l, r⟩ body).1 =
      (handle_register_finish ⟨c, b, l, r'⟩ body).1 := by
  by_cases h64 : body.clientIdentifier.length = 64
  · rcases hg : kvGet c ("cred:" ++ body.clientIdentifier) with _ | v <;>
      by_cases hb : (b64Decode body.registrationRecord).isNone = true <;>
      simp [handle_register_finish, h64, hg, hb]
  · simp [handle_register_finish, h64]

theorem login_start_rate_independent (oracle : PakeOracle) (now : Nat)
    (c b l : KvStore) (r r' : RateStore) (body : LoginStartRequest) :
    (handle_login_start oracle now ⟨c, b, l, r⟩ body).1 =
      (handle_login_start oracle now ⟨c, b, l, r'⟩ body).1 := by
  by_cases h64 : body.clientIdentifier.length = 64
  · rcases hg : kvGet c ("cred:" ++ body.clientIdentifier) with _ | pfB64
    · rcases hq : b64Decode body.startLoginRequest with _ | req
      · simp [handle_login_start, h64, hg, hq]
      · rcases ho : oracle.startLogin (strBytes body.clientIdentifier) none req with e | pr <;>
          simp [handle_login_start, h64, hg, hq, ho]
    · rcases hpf : b64Decode pfB64 with _ | pf
      · simp [handle_login_start, h64, hg, hpf]
      · rcases hq : b64Decode body.startLoginRequest with _ | req
        · simp [handle_login_start, h64, hg, hpf, hq]
        · rcases ho : oracle.startLogin (strBytes body.clientIdentifier) (some pf) req
            with e | pr <;>
            simp [handle_login_start, h64, hg, hpf, hq, ho]
  · simp [handle_login_start, h64]

theorem login_finish_rate_independent (oracle : PakeOracle)
    (c b l : KvStore) (r r' : RateStore) (body : LoginFinishRequest) :
    (handle_login_finish oracle ⟨c, b, l, r⟩ body).result =
      (handle_login_finish oracle ⟨c, b, l, r'⟩ body).result := by
  by_cases h64 : body.clientIdentifier.length = 64
  · rcases hfd : kvGet l body.stateKey with _ | s
    · simp [handle_login_finish, h64, hfd]
    · rcases hss : b64Decode s with _ | ss
      · simp [handle_login_finish, h64, hfd, hss]
      · rcases hfb : b64Decode body.finishLoginRequest with _ | fb
        · simp [handle_login_finish, h64, hfd, hss, hfb]
        · rcases hor : oracle.finishLogin ss fb with e | sk <;>
            by_cases hfake : strEndsWith body.stateKey ":f" = true <;>
            simp [handle_login_finish, h64, hfd, hss, hfb, hor, hfake]
  · simp [handle_login_finish, h64]

theorem register_finish_preserves_rate (env : Env) (body : RegisterFinishRequest) :
    (handle_register_finish env body).2.rateLimits = env.rateLimits := by
  by_cases h64 : body.clientIdentifier.length = 64
  · rcases hg : kvGet env.credentials ("cred:" ++ body.clientIdentifier) with _ | v <;>
      by_cases hb : (b64Decode body.registrationRecord).isNone = true <;>
      rcases body with ⟨ci, rr, _ | bundle⟩ <;>
      simp_all [handle_register_finish]
  · simp [handle_register_finish, h64]

theorem login_start_preserves_rate (oracle : PakeOracle) (now : Nat) (env : Env)
    (body : LoginStartRequest) :
    (handle_login_start oracle now env body).2.rateLimits = env.rateLimits := by
  by_cases h64 : body.clientIdentifier.length = 64
  · rcases hg : kvGet env.credentials ("cred:" ++ body.clientIdentifier) with _ | pfB64
    · rcases hq : b64Decode body.startLoginRequest with _ | req
      · simp [handle_login_start, h64, hg, hq]
      · rcases ho : oracle.startLogin (strBytes body.clientIdentifier) none req with e | pr <;>
          simp [handle_login_start, h64, hg, hq, ho]
    · rcases hpf : b64Decode pfB64 with _ | pf
      · simp [handle_login_start, h64, hg, hpf]
      · rcases hq : b64Decode body.startLoginRequest with _ | req
        · simp [handle_login_start, h64, hg, hpf, hq]
        · rcases ho : oracle.startLogin (strBytes body.clientIdentifier) (some pf) req
            with e | pr <;>
            simp [handle_login_start, h64, hg, hpf, hq, ho]
  · simp [handle_login_start, h64]

theorem login_finish_preserves_rate (oracle : PakeOracle) (env : Env)
    (body : LoginFinishRequest) :
    (handle_login_finish oracle env body).env.rateLimits = env.rateLimits := by
  by_cases h64 : body.clientIdentifier.length = 64
  · rcases hfd : kvGet env.loginStates body.stateKey with _ | s
    · simp [handle_login_finish, h64, hfd]
    · rcases hss : b64Decode s with _ | ss
      · simp [handle_login_finish, h64, hfd, hss]
      · rcases hfb : b64Decode body.finishLoginRequest with _ | fb
        · simp [handle_login_finish, h64, hfd, hss, hfb]
        · rcases hor : oracle.finishLogin ss fb with e | sk <;>
            by_cases hfake : strEndsWith body.stateKey ":f" = true <;>
            simp [handle_login_finish, h64, hfd, hss, hfb, hor, hfake]
  · simp [handle_login_finish, h64]

/-- C9: no rate limiter check runs before the flow controllers. The router
dispatch hands every authentication request directly to its handler:
responses are invariant under arbitrary changes to the RATE_LIMITS
namespace, that namespace is never written by any request, and concretely
a login-start request whose (identifier, endpoint) window count sits at
the configured maximum of 5 inside an unelapsed window (which
check_rate_limit, were it invoked, would deny with 60 seconds remaining)
is still processed by the flow controller and succeeds with 200. -/
theorem router_never_rate_limits :
    (∀ (oracle : PakeOracle) (now : Nat) (c b l : KvStore) (r r' : RateStore)
        (req : ApiRequest),
      (mainFetch oracle now ⟨c, b, l, r⟩ req).1 =
        (mainFetch oracle now ⟨c, b, l, r'⟩ req).1) ∧
    (∀ (oracle : PakeOracle) (now : Nat) (env : Env) (req : ApiRequest),
      (mainFetch oracle now env req).2.rateLimits = env.rateLimits) ∧
    (check_rate_limit [("rate:" ++ idA ++ ":login/start", ⟨5, 0⟩)] idA "login/start" 0
        RateLimitConfig.default =
      (.error 60, [("rate:" ++ idA ++ ":login/start", ⟨5, 0⟩)]) ∧
    (mainFetch okOracle 0 ⟨[], [], [], [("rate:" ++ idA ++ ":login/start", ⟨5, 0⟩)]⟩
        (.loginStart ⟨idA, "AAAA"⟩)).1 =
      .response (.loginStartOk (b64Encode [7, 7])
        ("state:" ++ idA ++ ":" ++ toString 0 ++ ":" ++ "f")) 200) := by
  refine ⟨?_, ?_, ?_, ?_⟩
  · intro oracle now c b l r r' req
    cases req with
    | registerStart body => rfl
    | registerFinish body => exact register_finish_rate_independent c b l r r' body
    | loginStart body => exact login_start_rate_independent oracle now c b l r r' body
    | loginFinish body => exact login_finish_rate_independent oracle c b l r r' body
  · intro oracle now env req
    cases req with
    | registerStart body => rfl
    | registerFinish body => exact register_finish_preserves_rate env body
    | loginStart body => exact login_start_preserves_rate oracle now env body
    | loginFinish body => exact login_finish_preserves_rate oracle env body
  · rfl
  · rfl

end FamilyMedical
